import Mathlib

/-!
Verification of the session/cache/policy engine of `src/util/torTools.py`:
the `Controller` (GETINFO/GETCONF caches, SETCONF eviction, event-subscription
negotiation, event handlers, fingerprint resolution) and the `ExitPolicy`
rule-chain evaluator.

The Python code is shallowly embedded: each method becomes a Lean function
over an explicit `CtrlState`, with the external TorCtl transport modelled as
an oracle (`Transport`).  Python's dynamic values are modelled by `PyVal`
with Python-2 equality (`pyEq`) and truthiness (`pyTruthy`).  Numeric parses
(`int(...)`) are modelled as total functions defined on well-formed digit
strings (Python raises `ValueError` outside that domain).
-/

namespace TorTools

/-! ## Python string primitives (over `List Char`, kernel-reducible) -/

/-- Whitespace characters recognized by Python's `str.split()`/`str.strip()`
(restricted to the ASCII whitespace that occurs in controller replies). -/
def isWs (c : Char) : Bool := c = ' ' || c = '\n' || c = '\t' || c = '\r'

/-- All indices of `s` at which `pat` occurs (Python substring match). -/
def matchIndices (pat s : List Char) : List Nat :=
  (List.range (s.length + 1)).filter (fun i => pat.isPrefixOf (s.drop i))

/-- Python `s.find(pat)`: first index of `pat` in `s`, `-1` if absent. -/
def pyFind (s pat : String) : Int :=
  match (matchIndices pat.data s.data).head? with
  | some i => Int.ofNat i
  | none => -1

/-- Python `s.rfind(pat)`: last index of `pat` in `s`, `-1` if absent. -/
def pyRfind (s pat : String) : Int :=
  match (matchIndices pat.data s.data).getLast? with
  | some i => Int.ofNat i
  | none => -1

/-- Python `pat in s`. -/
def pyContains (s pat : String) : Bool := pyFind s pat ≥ 0

/-- Clamp a Python slice index to an actual offset into a string of length `len`. -/
def pySliceIdx (len : Nat) (i : Int) : Nat :=
  if i < 0 then ((len : Int) + i).toNat else min i.toNat len

/-- Python `s[a:b]` (negative indices count from the end, out-of-range clamps). -/
def pySlice (s : String) (a b : Int) : String :=
  let lo := pySliceIdx s.data.length a
  let hi := pySliceIdx s.data.length b
  ⟨(s.data.take hi).drop lo⟩

/-- Python `s[a:]`. -/
def pySliceFrom (s : String) (a : Int) : String :=
  pySlice s a (Int.ofNat s.data.length)

/-- Python `s.startswith(pat)`. -/
def pyStartswith (s pat : String) : Bool := pat.data.isPrefixOf s.data

/-- Python `s.endswith(pat)`. -/
def pyEndswith (s pat : String) : Bool := pat.data.isSuffixOf s.data

/-- Fuel-indexed worker for `pyReplace`; fuel bounds the number of scanned
positions, `s.length` always suffices. -/
def replaceAux (pat rep : List Char) : Nat → List Char → List Char
  | _, [] => []
  | 0, s => s
  | fuel + 1, c :: rest =>
    if pat ≠ [] ∧ pat.isPrefixOf (c :: rest) then
      rep ++ replaceAux pat rep fuel (List.drop (pat.length - 1) rest)
    else
      c :: replaceAux pat rep fuel rest

/-- Python `s.replace(pat, rep)` (all occurrences, left to right). -/
def pyReplace (s pat rep : String) : String :=
  ⟨replaceAux pat.data rep.data s.data.length s.data⟩

/-- Worker for `pyReplaceFirst`: splice in `rep` at the first occurrence only. -/
def replaceFirstAux (pat rep : List Char) : List Char → List Char
  | [] => []
  | c :: rest =>
    if pat ≠ [] ∧ pat.isPrefixOf (c :: rest) then
      rep ++ List.drop (pat.length - 1) rest
    else
      c :: replaceFirstAux pat rep rest

/-- Python `s.replace(pat, rep, 1)`. -/
def pyReplaceFirst (s pat rep : String) : String :=
  ⟨replaceFirstAux pat.data rep.data s.data⟩

/-- First match position of `pat` in `s` as an `Option`. -/
def findIdx? (pat s : List Char) : Option Nat := (matchIndices pat s).head?

/-- Fuel-indexed worker for `pySplit`; fuel bounds the number of separator
occurrences, `s.length + 1` always suffices for a non-empty separator. -/
def splitSepAux (sep : List Char) : Nat → List Char → List (List Char)
  | 0, s => [s]
  | fuel + 1, s =>
    match findIdx? sep s with
    | none => [s]
    | some i => s.take i :: splitSepAux sep fuel (s.drop (i + sep.length))

/-- Python `s.split(sep)` for a non-empty separator `sep`. -/
def pySplit (s sep : String) : List String :=
  (splitSepAux sep.data (s.data.length + 1) s.data).map (fun l => ⟨l⟩)

/-- Python `s.split(sep, 1)`. -/
def pySplit1 (s sep : String) : String × String :=
  match findIdx? sep.data s.data with
  | none => (s, "")
  | some i => (⟨s.data.take i⟩, ⟨s.data.drop (i + sep.data.length)⟩)

/-- Python `s.split()` (split on whitespace runs, no empty fields). -/
def pySplitWs (s : String) : List String :=
  ((s.data.foldr
      (fun c acc =>
        if isWs c then [] :: acc
        else match acc with
          | w :: ws => (c :: w) :: ws
          | [] => [[c]])
      [[]]).filter (fun w => ¬ w.isEmpty)).map (fun l => ⟨l⟩)

/-- Python `s.strip()` (ASCII whitespace). -/
def pyStrip (s : String) : String :=
  ⟨((s.data.dropWhile isWs).reverse.dropWhile isWs).reverse⟩

/-- Python `s.lower()` (ASCII case fold, as used on option names). -/
def pyLower (s : String) : String := ⟨s.data.map Char.toLower⟩

/-- Accumulate the decimal digits of a string into a number. -/
def digitsToNat : List Char → Nat → Nat
  | [], acc => acc
  | c :: rest, acc => digitsToNat rest (acc * 10 + (c.toNat - '0'.toNat))

/-- Python `int(s)` for the non-negative decimal strings that occur in
well-formed policy/port text. -/
def pyNat (s : String) : Nat := digitsToNat s.data 0

/-! ## Python values: Python-2 equality and truthiness -/

/-- Dynamic Python values as they flow through the controller: `None`,
booleans, ints, strings, lists and dicts (dicts as association lists). -/
inductive PyVal where
  | pyNone : PyVal
  | pyBool : Bool → PyVal
  | pyInt : Int → PyVal
  | pyStr : String → PyVal
  | pyList : List PyVal → PyVal
  | pyDict : List (PyVal × PyVal) → PyVal
deriving Repr

mutual

/-- Python 2 `==`.  Cross-type comparisons are `False` except for the
numeric `bool`/`int` overlap (`True == 1`). -/
def pyEq : PyVal → PyVal → Bool
  | .pyNone, .pyNone => true
  | .pyBool a, .pyBool b => a = b
  | .pyBool a, .pyInt n => (if a then (1 : Int) else 0) = n
  | .pyInt n, .pyBool a => n = (if a then (1 : Int) else 0)
  | .pyInt a, .pyInt b => a = b
  | .pyStr a, .pyStr b => a = b
  | .pyList a, .pyList b => pyEqList a b
  | .pyDict a, .pyDict b => pyEqPairs a b
  | _, _ => false

/-- Elementwise Python equality of lists. -/
def pyEqList : List PyVal → List PyVal → Bool
  | [], [] => true
  | a :: as', b :: bs => pyEq a b && pyEqList as' bs
  | _, _ => false

/-- Pairwise Python equality of association lists (our dicts are only ever
compared against structurally equal dicts or against `[]`). -/
def pyEqPairs : List (PyVal × PyVal) → List (PyVal × PyVal) → Bool
  | [], [] => true
  | (k, v) :: rest, (k', v') :: rest' => pyEq k k' && pyEq v v' && pyEqPairs rest rest'
  | _, _ => false

end

/-- Python truthiness. -/
def pyTruthy : PyVal → Bool
  | .pyNone => false
  | .pyBool b => b
  | .pyInt n => ¬ n = 0
  | .pyStr s => ¬ s = ""
  | .pyList l => ¬ l.isEmpty
  | .pyDict m => ¬ m.isEmpty

/-- The string payload of a `PyVal` (transport replies are strings). -/
def asStr : PyVal → String
  | .pyStr s => s
  | _ => ""

/-- Extract the strings of a Python list value. -/
def pyValStrings : PyVal → List String
  | .pyList l => l.filterMap (fun v => match v with | .pyStr s => some s | _ => none)
  | _ => []

/-! ## ExitPolicy (torTools.py lines 1538-1669)

A single accept/reject rule with an optional successor, forming a singly
linked chain.  `ExitPolicy.build` embeds `ExitPolicy.__init__`, `check`
embeds `ExitPolicy.check`, `render` embeds `ExitPolicy.__str__`. -/

/-- ip address ranges substituted by the 'private' keyword
(`PRIVATE_IP_RANGES`, torTools.py line 95). -/
def PRIVATE_IP_RANGES : List String :=
  ["0.0.0.0/8", "169.254.0.0/16", "127.0.0.0/8", "192.168.0.0/16", "10.0.0.0/8", "172.16.0.0/12"]

/-- Exit policy rule node: the attributes set by `ExitPolicy.__init__`. -/
inductive ExitPolicy where
  | mk (ruleEntry : String) (isAccept : Bool) (isIpWildcard : Bool)
       (ipAddress : String) (ipMask : Nat) (ipAddressBin : String)
       (minPort : Nat) (maxPort : Nat) (isPortWildcard : Bool)
       (nextRule : Option ExitPolicy)
deriving Repr

namespace ExitPolicy

def ruleEntry : ExitPolicy → String | .mk r _ _ _ _ _ _ _ _ _ => r
def isAccept : ExitPolicy → Bool | .mk _ a _ _ _ _ _ _ _ _ => a
def isIpWildcard : ExitPolicy → Bool | .mk _ _ w _ _ _ _ _ _ _ => w
def ipAddress : ExitPolicy → String | .mk _ _ _ ip _ _ _ _ _ _ => ip
def ipMask : ExitPolicy → Nat | .mk _ _ _ _ m _ _ _ _ _ => m
def ipAddressBin : ExitPolicy → String | .mk _ _ _ _ _ b _ _ _ _ => b
def minPort : ExitPolicy → Nat | .mk _ _ _ _ _ _ p _ _ _ => p
def maxPort : ExitPolicy → Nat | .mk _ _ _ _ _ _ _ p _ _ => p
def isPortWildcard : ExitPolicy → Bool | .mk _ _ _ _ _ _ _ _ w _ => w
def nextRule : ExitPolicy → Option ExitPolicy | .mk _ _ _ _ _ _ _ _ _ n => n

/-- `str((int(octet) >> y) & 1) for y in range(7, -1, -1)`: an octet as an
8-character binary string (torTools.py line 1597). -/
def octetBits (n : Nat) : String :=
  ⟨(List.range 8).map (fun i => if (n >>> (7 - i)) % 2 = 1 then '1' else '0')⟩

/-- The 32-character binary form of a dotted address (lines 1592-1599). -/
def addressBin (ipAddress : String) : String :=
  if ipAddress ≠ "*" then
    ⟨((pySplit ipAddress ".").map (fun oct => (octetBits (pyNat oct)).data)).flatten⟩
  else
    ⟨List.replicate 32 '0'⟩

/-- Sanitizing of the rule entry (line 1554): clean up escaped tabs, strip
quotes. -/
def sanitizeEntry (r : String) : String := pyReplace (pyReplace r "\\t" " ") "\"" ""

/-- `self.isAccept` (line 1558): the sanitized entry starts with `accept`. -/
def entryIsAccept (r : String) : Bool := pyStartswith (sanitizeEntry r) "accept"

/-- Line 1561: strip off `"accept "`/`"reject "` (first 7 characters) and all
remaining spaces. -/
def entryBody (r : String) : String := pyReplace (pySliceFrom (sanitizeEntry r) 7) " " ""

/-- Lines 1564-1565: the address component (with optional mask), before the
`private` alias is resolved.  Default port wildcard when no colon occurs. -/
def entryIp (r : String) : String :=
  if pyContains (entryBody r) ":" then (pySplit1 (entryBody r) ":").1 else entryBody r

/-- Lines 1564-1565: the port component of the entry. -/
def entryPortStr (r : String) : String :=
  if pyContains (entryBody r) ":" then (pySplit1 (entryBody r) ":").2 else "*"

/-- `self.isIpWildcard` (line 1568), computed before the alias expansion. -/
def entryIpWildcard (r : String) : Bool :=
  entryIp r = "*" || pyEndswith (entryIp r) "/0"

/-- Tail of `ExitPolicy.__init__` after the `private` alias has been resolved
(lines 1583-1617): mask split, binary address, port component and the
terminal-wildcard successor cutoff. -/
def finishRule (ruleEntry : String) (isAccept isIpWildcard : Bool)
    (entryIp entryPort : String) (next : Option ExitPolicy) : ExitPolicy :=
  let ipAddress := if pyContains entryIp "/" then (pySplit1 entryIp "/").1 else entryIp
  let ipMask := if pyContains entryIp "/" then pyNat (pySplit1 entryIp "/").2 else 32
  let ipAddressBin := addressBin ipAddress
  let isPortWildcard := entryPort = "*"
  let minPort :=
    if entryPort ≠ "*" then
      if pyContains entryPort "-" then pyNat (pySplit1 entryPort "-").1 else pyNat entryPort
    else 0
  let maxPort :=
    if entryPort ≠ "*" then
      if pyContains entryPort "-" then pyNat (pySplit1 entryPort "-").2 else pyNat entryPort
    else 0
  let nextRule := if isIpWildcard && isPortWildcard then none else next
  .mk ruleEntry isAccept isIpWildcard ipAddress ipMask ipAddressBin
    minPort maxPort isPortWildcard nextRule

/-- `ExitPolicy.__init__` for entries whose address is not the `private`
alias.  The recursive calls made by the alias expansion always construct
entries of the form `"accept|reject <range>:<port>"`, whose address is never
`private`, so they go through this path. -/
def buildNonPrivate (r : String) (next : Option ExitPolicy) : ExitPolicy :=
  finishRule (sanitizeEntry r) (entryIsAccept r) (entryIpWildcard r)
    (entryIp r) (entryPortStr r) next

/-- `ExitPolicy.__init__` (lines 1544-1617).  When the address is the literal
`private`, the rule's own address becomes `PRIVATE_IP_RANGES[0]` and a
sub-chain over `PRIVATE_IP_RANGES[-1:0:-1]` is constructed backwards (last
first) and becomes the rule's successor (lines 1570-1581). -/
def build (r : String) (next : Option ExitPolicy) : ExitPolicy :=
  if pyLower (entryIp r) = "private" then
    let pfx := if entryIsAccept r then "accept " else "reject "
    let sfx := ":" ++ entryPortStr r
    let lastHop := ((PRIVATE_IP_RANGES.drop 1).reverse).foldl
      (fun acc addr => some (buildNonPrivate (pfx ++ addr ++ sfx) acc)) next
    finishRule (sanitizeEntry r) (entryIsAccept r) (entryIpWildcard r)
      (PRIVATE_IP_RANGES.headI) (entryPortStr r) lastHop
  else
    buildNonPrivate r next

/-- `ExitPolicy.check` (lines 1619-1645): test the port, then the address
(wildcard, exact or binary prefix up to the mask), else delegate to the
successor; an exhausted chain accepts. -/
def check : ExitPolicy → String → Nat → Bool
  | .mk _ isAccept isIpWildcard ipAddress ipMask ipAddressBin minPort maxPort
      isPortWildcard nextRule, ipAddr, port =>
    let isPortMatch := isPortWildcard || (port ≥ minPort && port ≤ maxPort)
    let isIpMatch :=
      if isPortMatch then
        let m := isIpWildcard || ipAddress = ipAddr
        if ¬ m ∧ ipMask ≠ 32 then
          decide ((ipAddressBin.data.take ipMask) = ((addressBin ipAddr).data.take ipMask))
        else m
      else false
    if isPortMatch && isIpMatch then isAccept
    else
      match nextRule with
      | some r => r.check ipAddr port
      | none => true

/-- `ExitPolicy.__str__` (lines 1647-1669): canonical
`accept|reject ip[/mask]:port[-port]` text of the expanded chain. -/
def render : ExitPolicy → String
  | .mk _ isAccept isIpWildcard ipAddress ipMask _ minPort maxPort
      isPortWildcard nextRule =>
    let acceptanceLabel := if isAccept then "accept" else "reject"
    let ipLabel :=
      if isIpWildcard then "*"
      else if ipMask ≠ 32 then ipAddress ++ "/" ++ toString ipMask
      else ipAddress
    let portLabel :=
      if isPortWildcard then "*"
      else if minPort ≠ maxPort then toString minPort ++ "-" ++ toString maxPort
      else toString minPort
    let myPolicy := acceptanceLabel ++ " " ++ ipLabel ++ ":" ++ portLabel
    match nextRule with
    | some r => myPolicy ++ ", " ++ r.render
    | none => myPolicy

end ExitPolicy

/-! ## Controller: state, transport oracle, caches (torTools.py lines 230-1536)

The `Controller` methods are embedded as functions over an explicit
`CtrlState`, with the TorCtl connection modelled as a read-only oracle
(`Transport`).  Each transport round-trip and cache eviction is recorded in
`CtrlState.log`, which lets theorems speak about whether (and in which
order) the transport was consulted.  The module-level globals used by the
controller (`FAILED_EVENTS`) live in the state as well.  Thread spawning
(`_notifyStatusListeners`) and the connection lock are not modelled: every
embedded call runs start-to-finish under the lock, exactly as the Python
methods do. -/

/-- Valid keys for the controller's getInfo cache (`CACHE_ARGS`, lines 54-58). -/
def CACHE_ARGS : List String :=
  ["version", "config-file", "exit-policy/default", "fingerprint",
   "config/names", "info/names", "features/names", "events/names",
   "nsEntry", "descEntry", "address", "bwRate", "bwBurst",
   "bwObserved", "bwMeasured", "flags", "pid", "pathPrefix",
   "startTime", "authorities"]

/-- Value used by cached information if undefined (`UNKNOWN`, line 71). -/
def UNKNOWN : String := "UNKNOWN"

/-- The keys of `REQ_EVENTS` (lines 86-89): events required for controller
functionality, always unioned into a subscription request. -/
def REQ_EVENTS_KEYS : List String := ["NOTICE", "NEWDESC", "NS", "NEWCONSENSUS"]

/-- Errors surfaced by the transport: socket-level failure, a protocol error
reply carrying daemon text, the transport-closed error, and an uncaught
Python-level fault (e.g. `IndexError`) that no `except` clause matches. -/
inductive TErr where
  | socketError : TErr
  | errorReply : String → TErr
  | torCtlClosed : TErr
  | uncaught : TErr
deriving Repr, DecidableEq

/-- Controller status (`State` enum, line 25). -/
inductive TorState where
  | init : TorState
  | closed : TorState
deriving Repr, DecidableEq

/-- Observable actions of a controller call: transport round-trips plus the
cache evictions / policy rebuild performed by `setOption`. -/
inductive Action where
  | getInfoQ : String → Action
  | getConfQ : String → Action
  | setConfQ : String → Action
  | setEventsQ : List String → Action
  | getNetStatusQ : String → Action
  | evictConf : String → String → Action
  | rebuildExitPolicy : Action
deriving Repr, DecidableEq

/-- A network status entry as provided by the transport's
`get_network_status` (fields used: `ip`, `orport`, `idhex`). -/
structure NsEntry where
  ip : String
  orport : Int
  idhex : String
deriving Repr, DecidableEq

/-- The TorCtl transport oracle: responses of the external connection object.
`setEventsResps` is the script of responses successive `set_events` calls
receive during one negotiation. -/
structure Transport where
  infoResp : String → Except TErr (Option String)
  optionResp : String → Except TErr (List (String × Option String))
  setOptionResp : String → PyVal → Except TErr Unit
  setEventsResps : List (Except TErr Unit)
  netStatusAll : Except TErr (List NsEntry)
  netStatusResp : String → Except TErr (List NsEntry)
  buildRouterDown : List String → NsEntry → Bool

/-- The mutable attributes of `Controller` (lines 237-267) that the claims
touch, plus the ambient clock (`time.time()` is constant during one call)
and the action log. -/
structure CtrlState where
  alive : Bool
  status : TorState
  statusTime : Nat
  clock : Nat
  lastHeartbeat : Nat
  isReset : Bool
  cachedParam : String → PyVal
  cachedConf : String × String → Option PyVal
  controllerEvents : List String
  failedEvents : List String
  fingerprintMappings : Option (List (String × List (Int × String)))
  fingerprintLookupCache : List ((String × PyVal) × Option String)
  fingerprintsAttachedCache : Option (List String)
  nicknameLookupCache : List (String × Option String)
  exitPolicyChecker : Option ExitPolicy
  exitPolicyLookupCache : List ((String × Nat) × Bool)
  log : List Action

namespace CtrlState

/-- Record an observable action. -/
def logAct (s : CtrlState) (a : Action) : CtrlState := { s with log := s.log ++ [a] }

/-- The synchronous part of `Controller.close` (lines 318-349): drop the
connection and mark the status.  The asynchronous status-listener thread
(which also resets the caches) is spawned separately and is not modelled. -/
def closeEffect (s : CtrlState) : CtrlState :=
  { s with alive := false, status := .closed, statusTime := s.clock }

/-- Store into the getInfo parameter cache. -/
def setParam (s : CtrlState) (k : String) (v : PyVal) : CtrlState :=
  { s with cachedParam := fun k' => if k' = k then v else s.cachedParam k' }

/-- Store into / evict from the GETCONF option cache. -/
def setConf (s : CtrlState) (k : String × String) (v : Option PyVal) : CtrlState :=
  { s with cachedConf := fun k' => if k' = k then v else s.cachedConf k' }

end CtrlState

namespace Controller

/-- `Controller.getInfo` (lines 389-431): serve cacheable keys from
`_cachedParam` when the cached value is truthy; otherwise query the
transport, populate the cache with any truthy result for a cacheable key,
and suppress errors into the default unless the caller opted out.  A
`TorCtlClosed` error triggers the close transition. -/
def getInfo (t : Transport) (s : CtrlState) (param : String) (default : PyVal)
    (suppressExc : Bool) : Except TErr PyVal × CtrlState :=
  if s.alive then
    if param ∈ CACHE_ARGS ∧ pyTruthy (s.cachedParam param) then
      (.ok (s.cachedParam param), s)
    else
      let s1 := s.logAct (.getInfoQ param)
      match t.infoResp param with
      | .ok (some v) =>
        let result := PyVal.pyStr v
        (.ok result,
         if pyTruthy result ∧ param ∈ CACHE_ARGS then s1.setParam param result else s1)
      | .ok none =>
        (.ok default,
         if pyTruthy default ∧ param ∈ CACHE_ARGS then s1.setParam param default else s1)
      | .error e =>
        let s2 := if e = .torCtlClosed then s1.closeEffect else s1
        let s3 := if pyTruthy default ∧ param ∈ CACHE_ARGS then s2.setParam param default else s2
        (if suppressExc then .ok default else .error e, s3)
  else
    (.ok default,
     if pyTruthy default ∧ param ∈ CACHE_ARGS then s.setParam param default else s)

/-- The `key in result` / append-or-create update of the `map` fetch
in `_getOption` (lines 518-520). -/
def dictAppendStr (m : List (PyVal × PyVal)) (k v : String) : List (PyVal × PyVal) :=
  if m.any (fun e => pyEq e.1 (.pyStr k)) then
    m.map (fun e =>
      if pyEq e.1 (.pyStr k) then
        (e.1, match e.2 with | .pyList l => .pyList (l ++ [.pyStr v]) | x => x)
      else e)
  else m ++ [(.pyStr k, .pyList [.pyStr v])]

/-- The result dict built by the `map` fetch of `_getOption` (lines 515-520):
pairs with a `None` value are skipped. -/
def buildConfMap (pairs : List (String × Option String)) : List (PyVal × PyVal) :=
  pairs.foldl
    (fun m p => match p.2 with | none => m | some v => dictAppendStr m p.1 v) []

/-- `Controller._getOption` (lines 495-539): shape-directed GETCONF with a
cache keyed by `(option-name-lowercased, fetchType)`.  Only truthy results
are stored; the final `result == []` comparison uses Python-2 equality, so
an empty `map` result is returned as the empty dict rather than the default.
The `list(result)`/`dict(result)` defensive copies (lines 526-528) are the
identity here since values are immutable.  An empty reply with the `str`
fetch type raises an uncaught `IndexError` in the source
(`get_option(param)[0]`); that surfaces as `TErr.uncaught`. -/
def getOptionByType (t : Transport) (s : CtrlState) (param : String) (default : PyVal)
    (fetchType : String) (suppressExc : Bool) : Except TErr PyVal × CtrlState :=
  if fetchType ∉ ["str", "list", "map"] then (.ok default, s)
  else
    let emptyInit : PyVal := if fetchType = "map" then .pyDict [] else .pyList []
    if s.alive then
      match s.cachedConf (pyLower param, fetchType) with
      | some cached =>
        (if pyEq cached (.pyList []) then .ok default else .ok cached, s)
      | none =>
        let s1 := s.logAct (.getConfQ param)
        match t.optionResp param with
        | .ok pairs =>
          if fetchType = "str" then
            match pairs with
            | [] => (.error .uncaught, s1)
            | (_, v) :: _ =>
              let result := match v with | some str => PyVal.pyStr str | none => emptyInit
              let s2 := if pyTruthy result then s1.setConf (pyLower param, fetchType) (some result)
                        else s1
              (if pyEq result (.pyList []) then .ok default else .ok result, s2)
          else if fetchType = "list" then
            let result := PyVal.pyList ((pairs.filterMap (fun p => p.2)).map .pyStr)
            let s2 := if pyTruthy result then s1.setConf (pyLower param, fetchType) (some result)
                      else s1
            (if pyEq result (.pyList []) then .ok default else .ok result, s2)
          else
            let result := PyVal.pyDict (buildConfMap pairs)
            let s2 := if pyTruthy result then s1.setConf (pyLower param, fetchType) (some result)
                      else s1
            (if pyEq result (.pyList []) then .ok default else .ok result, s2)
        | .error e =>
          let s2 := if e = .torCtlClosed then s1.closeEffect else s1
          let s3 := if pyTruthy default then s2.setConf (pyLower param, fetchType) (some default)
                    else s2
          (if suppressExc then .ok default else .error e, s3)
    else
      (if pyEq emptyInit (.pyList []) then .ok default else .ok emptyInit, s)

/-- `Controller.getOption` (lines 433-461).  The `torrc.map` special-command
table is empty in the default configuration (line 72), so every call
delegates to `_getOption` with the `list` (multiple) or `str` fetch type. -/
def getOption (t : Transport) (s : CtrlState) (param : String) (default : PyVal)
    (multiple : Bool) (suppressExc : Bool) : Except TErr PyVal × CtrlState :=
  getOptionByType t s param default (if multiple then "list" else "str") suppressExc

/-- Unwrap a suppressed-error result (`suppressExc = true` calls never return
`.error`; the fallback keeps the function total). -/
def okOr (r : Except TErr PyVal) (fallback : PyVal) : PyVal :=
  match r with
  | .ok v => v
  | .error _ => fallback

/-- `Controller.getExitPolicy` (lines 758-796): assemble the exit-policy
chain from the `ExitPolicy` option entries, the `exit-policy/default`
GETINFO value (chain constructed backwards), and — when
`ExitPolicyRejectPrivate` is truthy (note: the string `"0"` is truthy) —
prepended `reject private` / `reject <my address>` rules. -/
def getExitPolicy (t : Transport) (s : CtrlState) : Option ExitPolicy × CtrlState :=
  if s.alive then
    let r1 := getOption t s "ExitPolicy" (.pyList []) true true
    let s := r1.2
    let policyEntries :=
      ((pyValStrings (okOr r1.1 (.pyList []))).map
        (fun ep => (pySplit ep ",").map pyStrip)).flatten
    let r2 := getInfo t s "exit-policy/default" .pyNone true
    let s := r2.2
    let dv := okOr r2.1 .pyNone
    let policyEntries :=
      if pyTruthy dv then policyEntries ++ pySplit (asStr dv) "," else policyEntries
    let result := (policyEntries.reverse).foldl
      (fun acc e => some (ExitPolicy.build e acc)) none
    let r3 := getOption t s "ExitPolicyRejectPrivate" (.pyBool true) false true
    let s := r3.2
    if pyTruthy (okOr r3.1 (.pyBool true)) then
      let result := some (ExitPolicy.build "reject private" result)
      let r4 := getInfo t s "address" .pyNone true
      let s := r4.2
      let av := okOr r4.1 .pyNone
      if pyTruthy av then
        (some (ExitPolicy.build ("reject " ++ asStr av) result), s)
      else (result, s)
    else (result, s)
  else (none, s)

/-- One iteration of the cache-flush loop of `setOption` (lines 562-566):
delete the `(param.lower(), fetchType)` entry if present. -/
def evictStep (param : String) (st : CtrlState) (ft : String) : CtrlState :=
  if (st.cachedConf (pyLower param, ft)).isSome then
    (st.setConf (pyLower param, ft) none).logAct (.evictConf (pyLower param) ft)
  else st

/-- `Controller.setOption` (lines 541-597): issue the SETCONF write (the
`set_options` multi-value and `set_option` single-value calls are both one
transport write here), then — only after the write succeeded — flush the
three shape-variants of the option's cache entries, and rebuild the
exit-policy chain and its lookup cache when the written option (lowercased)
is `exitpolicy`.  On an `ErrorReply` the `513 Unacceptable option value: `
prefix and the echoed option name are cropped from the re-raised message. -/
def setOption (t : Transport) (s : CtrlState) (param : String) (value : PyVal) :
    Option TErr × CtrlState :=
  if s.alive then
    let s1 := s.logAct (.setConfQ param)
    match t.setOptionResp param value with
    | .ok _ =>
      let s2 := ["str", "list", "map"].foldl (evictStep param) s1
      if pyLower param = "exitpolicy" then
        let r := getExitPolicy t s2
        let s3 := { r.2 with exitPolicyChecker := r.1, exitPolicyLookupCache := [] }
        (none, s3.logAct .rebuildExitPolicy)
      else (none, s2)
    | .error e =>
      let s2 := if e = .torCtlClosed then s1.closeEffect else s1
      let e' := match e with
        | .errorReply msg =>
          if pyStartswith msg "513 Unacceptable option value: " then
            let msg1 := pySliceFrom msg 31
            TErr.errorReply
              (if pyStartswith msg1 "Value '" then pyReplaceFirst msg1 (param ++ " ") ""
               else msg1)
          else .errorReply msg
        | other => other
      (some e', s2)
  else (none, s)

end Controller

/-- A fingerprint result as stored in `_fingerprintLookupCache`: the relay's
fingerprint string, or `None` when the lookup failed to resolve. -/
def pyValToOptStr : PyVal → Option String
  | .pyStr s => some s
  | _ => none

/-- Remove the first element of `l` whose port component equals `port`
(the `orportMatch` removal of `new_desc_event`, lines 1163-1170). -/
def removeFirstPort (l : List (Int × String)) (port : Int) : List (Int × String) :=
  match l with
  | [] => []
  | x :: rest => if x.1 = port then rest else x :: removeFirstPort rest port

/-- `list.remove(e)`: drop the first element equal to `e`. -/
def removeFirstEq (l : List (Int × String)) (e : Int × String) : List (Int × String) :=
  match l with
  | [] => []
  | x :: rest => if x = e then rest else x :: removeFirstEq rest e

/-- `results.get(ip)` on the ip → relay-list mapping. -/
def assocIp (m : List (String × List (Int × String))) (ip : String) :
    Option (List (Int × String)) :=
  (m.find? (fun e => e.1 = ip)).map (fun e => e.2)

/-- `self._fingerprintLookupCache` lookup: dict keyed by the
`(relayAddress, relayPort)` pair with Python equality on the port. -/
def fpcLookup (c : List ((String × PyVal) × Option String)) (a : String) (p : PyVal) :
    Option (Option String) :=
  (c.find? (fun e => e.1.1 = a && pyEq e.1.2 p)).map (fun e => e.2)

namespace Controller

/-- `Controller._getFingerprintMappings` (lines 1236-1257): ip address to
(port, fingerprint) mappings for the cached relays, from the given network
status listing or — when it is empty/None — from a full
`get_network_status` transport query. -/
def getFingerprintMappings (t : Transport) (s : CtrlState) (nsList : List NsEntry) :
    List (String × List (Int × String)) × CtrlState :=
  if s.alive then
    let step := fun (res : List (String × List (Int × String))) (relay : NsEntry) =>
      if res.any (fun e => e.1 = relay.ip) then
        res.map (fun e =>
          if e.1 = relay.ip then (e.1, e.2 ++ [(relay.orport, relay.idhex)]) else e)
      else res ++ [(relay.ip, [(relay.orport, relay.idhex)])]
    if nsList.isEmpty then
      match t.netStatusAll with
      | .ok l => (l.foldl step [], s.logAct (.getNetStatusQ ""))
      | .error _ => ([], s.logAct (.getNetStatusQ ""))
    else (nsList.foldl step [], s)
  else ([], s)

/-- Clear the three consensus-derived parameter cache entries
(`nsEntry`, `flags`, `bwMeasured`; Python stores `None`). -/
def clearConsensusParams (s : CtrlState) : CtrlState :=
  ((s.setParam "nsEntry" .pyNone).setParam "flags" .pyNone).setParam "bwMeasured" .pyNone

/-- `Controller.ns_event` (lines 1099-1113). -/
def nsEvent (t : Transport) (s : CtrlState) (nslist : List NsEntry) : CtrlState :=
  let s := { s with lastHeartbeat := s.clock }
  let r := getInfo t s "fingerprint" .pyNone true
  let s := r.2
  let myFp := okOr r.1 .pyNone
  if pyTruthy myFp then
    if nslist.any (fun ns => pyEq (.pyStr ns.idhex) myFp) then clearConsensusParams s else s
  else clearConsensusParams s

/-- `Controller.new_consensus_event` (lines 1115-1132). -/
def newConsensusEvent (t : Transport) (s : CtrlState) (nslist : List NsEntry) : CtrlState :=
  let s := { s with lastHeartbeat := s.clock }
  let s := clearConsensusParams s
  let s := { s with fingerprintLookupCache := [], fingerprintsAttachedCache := none,
                    nicknameLookupCache := [] }
  if s.fingerprintMappings ≠ none then
    let r := getFingerprintMappings t s nslist
    { r.2 with fingerprintMappings := some r.1 }
  else s

/-- One iteration of the mapping-update loop of `new_desc_event`
(lines 1150-1175): fetch the consensus entry for the new descriptor's
fingerprint, and replace-or-append its `(orport, idhex)` entry under its
address.  A reply with multiple entries is skipped with a warning; an empty
reply would raise an uncaught `IndexError` at `nsLookup[0]` in the source
and is modelled as a skip (transports return a non-empty list on success). -/
def newDescStep (t : Transport)
    (acc : List (String × List (Int × String)) × CtrlState) (fp : String) :
    List (String × List (Int × String)) × CtrlState :=
  let m := acc.1
  let st := acc.2.logAct (.getNetStatusQ ("id/" ++ fp))
  match t.netStatusResp ("id/" ++ fp) with
  | .error _ => (m, st)
  | .ok nsLookup =>
    if nsLookup.length > 1 then (m, st)
    else
      match nsLookup with
      | [] => (m, st)
      | newRelay :: _ =>
        if m.any (fun e => e.1 = newRelay.ip) then
          (m.map (fun e =>
            if e.1 = newRelay.ip then
              (e.1, removeFirstPort e.2 newRelay.orport
                      ++ [(newRelay.orport, newRelay.idhex)])
            else e), st)
        else (m ++ [(newRelay.ip, [(newRelay.orport, newRelay.idhex)])], st)

/-- `Controller.new_desc_event` (lines 1134-1177). -/
def newDescEvent (t : Transport) (s : CtrlState) (idlist : List String) : CtrlState :=
  let s := { s with lastHeartbeat := s.clock }
  let r := getInfo t s "fingerprint" .pyNone true
  let s := r.2
  let myFp := okOr r.1 .pyNone
  let s :=
    if ¬ pyTruthy myFp ∨ idlist.any (fun i => pyEq (.pyStr i) myFp) then
      (s.setParam "descEntry" .pyNone).setParam "bwObserved" .pyNone
    else s
  let s := { s with fingerprintLookupCache := [], fingerprintsAttachedCache := none }
  match s.fingerprintMappings with
  | none => s
  | some m0 =>
    let r2 := idlist.foldl (newDescStep t) (m0, s)
    { r2.2 with fingerprintMappings := some r2.1 }

/-- `Controller.circ_status_event` (lines 1179-1184). -/
def circStatusEvent (s : CtrlState) : CtrlState :=
  let s := { s with lastHeartbeat := s.clock }
  { s with fingerprintsAttachedCache := none }

/-- `Controller.buildtimeout_set_event` (lines 1186-1187). -/
def buildtimeoutSetEvent (s : CtrlState) : CtrlState := { s with lastHeartbeat := s.clock }

/-- `Controller.stream_status_event` (lines 1189-1190). -/
def streamStatusEvent (s : CtrlState) : CtrlState := { s with lastHeartbeat := s.clock }

/-- `Controller.or_conn_status_event` (lines 1192-1193). -/
def orConnStatusEvent (s : CtrlState) : CtrlState := { s with lastHeartbeat := s.clock }

/-- `Controller.stream_bw_event` (lines 1195-1196). -/
def streamBwEvent (s : CtrlState) : CtrlState := { s with lastHeartbeat := s.clock }

/-- `Controller.bandwidth_event` (lines 1198-1199). -/
def bandwidthEvent (s : CtrlState) : CtrlState := { s with lastHeartbeat := s.clock }

/-- `Controller.address_mapped_event` (lines 1201-1202). -/
def addressMappedEvent (s : CtrlState) : CtrlState := { s with lastHeartbeat := s.clock }

/-- `Controller.unknown_event` (lines 1204-1205). -/
def unknownEvent (s : CtrlState) : CtrlState := { s with lastHeartbeat := s.clock }

/-- `Controller.msg_event` (lines 1084-1097): reacts to the reload (hup)
notice by flagging the reset and transitioning to `INIT`; the asynchronous
status-listener notification is not modelled.  Note this handler does not
touch the heartbeat. -/
def msgEvent (s : CtrlState) (level msg : String) : CtrlState :=
  if level = "NOTICE" ∧ pyStartswith msg "Received reload signal (hup)" then
    { s with isReset := true, status := .init, statusTime := s.clock }
  else s

/-- Disambiguation by `orconn-status`/`circuit-status` plus the
descriptor-based last resort of `_getRelayFingerprint` (lines 1297-1360).
`TorCtl.Router.build_from_desc(...).down` is the transport's
`buildRouterDown` oracle.  The `list.remove` calls mutate the list object
shared with `_fingerprintMappings[relayAddress]`, so the surviving list is
written back to the mapping.  Malformed `circuit-status` lines (fewer than
three space-separated fields) would raise an uncaught `IndexError` in the
source; the slice-of-empty here stands in for well-formed replies. -/
def getRelayFingerprintAttached (t : Transport) (s : CtrlState) (relayAddress : String)
    (pm : List (Int × String)) : Option String × CtrlState :=
  let ra :=
    match s.fingerprintsAttachedCache with
    | some a => (a, s)
    | none =>
      let r1 := getInfo t s "orconn-status" .pyNone true
      let s := r1.2
      let acc : List String :=
        if pyTruthy (okOr r1.1 .pyNone) then
          (pySplit (asStr (okOr r1.1 .pyNone)) "\n").map
            (fun line => pySlice line 1 (pyFind line "="))
        else []
      let r2 := getInfo t s "circuit-status" .pyNone true
      let s := r2.2
      let acc :=
        if pyTruthy (okOr r2.1 .pyNone) then
          acc ++ ((pySplit (asStr (okOr r2.1 .pyNone)) "\n").map
            (fun line =>
              (pySplit ((pySplit line " ").getD 2 "") ",").map
                (fun entry => pySlice entry 1 (pyFind entry "=")))).flatten
        else acc
      (acc, { s with fingerprintsAttachedCache := some acc })
  let att := ra.1
  let s := ra.2
  let attachedMatches := pm.filterMap (fun e => if e.2 ∈ att then some e.2 else none)
  match attachedMatches with
  | [fp] => (some fp, s)
  | _ =>
    let lastResort := fun (acc : List (Int × String) × CtrlState) (e : Int × String) =>
      let cur := acc.1
      let st := acc.2.logAct (.getNetStatusQ ("id/" ++ e.2))
      match t.netStatusResp ("id/" ++ e.2) with
      | .error _ => (cur, st)
      | .ok nsCall =>
        match nsCall with
        | [] => (cur, st)
        | nsE :: _ =>
          let rd := getInfo t st ("desc/id/" ++ e.2) .pyNone true
          let st := rd.2
          let descV := okOr rd.1 .pyNone
          if ¬ pyTruthy descV then (cur, st)
          else if t.buildRouterDown (pySplit (asStr descV) "\n") nsE then
            (removeFirstEq cur e, st)
          else (cur, st)
    let r := pm.foldl lastResort (pm, s)
    let newMaps := (r.2.fingerprintMappings).map
      (fun m => m.map (fun ent => if ent.1 = relayAddress then (ent.1, r.1) else ent))
    let s := { r.2 with fingerprintMappings := newMaps }
    match r.1 with
    | [(_, f)] => (some f, s)
    | _ => (none, s)

/-- The directory-map part of `_getRelayFingerprint` (lines 1277-1360):
lazily materialize the ip → fingerprint mappings, then disambiguate by
candidate count and port. -/
def getRelayFingerprintRest (t : Transport) (s : CtrlState) (relayAddress : String)
    (relayPort : PyVal) : Option String × CtrlState :=
  let rm :=
    match s.fingerprintMappings with
    | none =>
      let r := getFingerprintMappings t s []
      (r.1, { r.2 with fingerprintMappings := some r.1 })
    | some m => (m, s)
  let mappings := rm.1
  let s := rm.2
  match assocIp mappings relayAddress with
  | none => (none, s)
  | some pm =>
    match pm with
    | [] => (none, s)
    | [(mp, mf)] =>
      if pyTruthy relayPort ∧ ¬ pyEq (.pyInt mp) relayPort then (none, s)
      else (some mf, s)
    | _ =>
      let portMatch : Option String :=
        if pyTruthy relayPort then
          (pm.find? (fun e => pyEq (.pyInt e.1) relayPort)).map (fun e => e.2)
        else none
      match portMatch with
      | some fp => (some fp, s)
      | none => getRelayFingerprintAttached t s relayAddress pm

/-- `Controller._getRelayFingerprint` (lines 1259-1360).  A string port is
converted to an int "so lookups won't mismatch based on type" (line 1270);
the own-relay short-circuit then compares that int against the `ORPort`
option value — which `getOption` returns as a *string*, so the comparison is
Python's cross-type `int == str` and is always `False`. -/
def getRelayFingerprintInner (t : Transport) (s : CtrlState) (relayAddress : String)
    (relayPort0 : PyVal) : Option String × CtrlState :=
  let relayPort := match relayPort0 with
    | .pyStr p => PyVal.pyInt (pyNat p)
    | other => other
  let r1 := getInfo t s "address" .pyNone true
  let s := r1.2
  if pyEq (.pyStr relayAddress) (okOr r1.1 .pyNone) then
    if ¬ pyTruthy relayPort then
      let r2 := getInfo t s "fingerprint" .pyNone true
      (pyValToOptStr (okOr r2.1 .pyNone), r2.2)
    else
      let r3 := getOption t s "ORPort" .pyNone false true
      let s := r3.2
      if pyEq relayPort (okOr r3.1 .pyNone) then
        let r2 := getInfo t s "fingerprint" .pyNone true
        (pyValToOptStr (okOr r2.1 .pyNone), r2.2)
      else
        getRelayFingerprintRest t s relayAddress relayPort
  else getRelayFingerprintRest t s relayAddress relayPort

/-- `Controller.getRelayFingerprint` (lines 798-824): memoized by the
`(relayAddress, relayPort)` pair, failed resolutions (`None`) included. -/
def getRelayFingerprint (t : Transport) (s : CtrlState) (relayAddress : String)
    (relayPort : PyVal) : Option String × CtrlState :=
  if s.alive then
    match fpcLookup s.fingerprintLookupCache relayAddress relayPort with
    | some cached => (cached, s)
    | none =>
      let r := getRelayFingerprintInner t s relayAddress relayPort
      (r.1, { r.2 with fingerprintLookupCache :=
        r.2.fingerprintLookupCache ++ [((relayAddress, relayPort), r.1)] })
  else (none, s)

end Controller

/-! ### Event-subscription negotiation (torTools.py lines 920-1004)

Python's `set` is unordered; sets are determinized as duplicate-free lists
with order-preserving union/difference/intersection.  The properties proved
below are order-independent (membership, emptiness, unchangedness). -/

/-- `set(events)`: drop duplicates, keeping first occurrences. -/
def dedup (l : List String) : List String :=
  l.foldl (fun acc x => if x ∈ acc then acc else acc ++ [x]) []

/-- `a.union(b)` on determinized sets. -/
def listUnion (a b : List String) : List String := a ++ b.filter (fun x => x ∉ a)

/-- `a.difference(b)` on determinized sets. -/
def listDiff (a b : List String) : List String := a.filter (fun x => x ∉ b)

/-- `a.intersection(b)` on determinized sets. -/
def listInter (a b : List String) : List String := a.filter (fun x => x ∈ b)

/-- Parsing of the offending event name out of an `Unrecognized event` error
reply (lines 972-975): `msg[msg.find("event \"") + 7 : msg.rfind("\"")]`. -/
def parseUnrecognizedEvent (msg : String) : String :=
  pySlice msg (pyFind msg "event \"" + 7) (pyRfind msg "\"")

/-- Outcome of the trial-and-error `set_events` loop (lines 962-984):
regular completion (with the abandoned flag and the final event /
unavailable sets), an uncaught exception, or an exhausted response script
(the Python loop would still be re-submitting). -/
inductive NegotiationOut where
  | finished : Bool → List String → List String → NegotiationOut
  | raised : TErr → NegotiationOut
  | scriptOut : NegotiationOut
deriving Repr, DecidableEq

/-- Result of `setControllerEvents`: the returned listing, or a propagated
non-protocol error, or an unterminated negotiation. -/
inductive SCEOut where
  | ret : List String → SCEOut
  | raised : TErr → SCEOut
  | hung : SCEOut
deriving Repr, DecidableEq

namespace Controller

/-- The `while not isEventsSet and not isAbandoned` loop of
`setControllerEvents` (lines 962-984): submit the current set; on an
`Unrecognized event` reply parse the offending name, add it to the
unavailable set, discard it from the requested set and retry; any other
`ErrorReply` abandons; `TorCtlClosed` closes the connection and abandons;
an uncaught exception (e.g. `socket.error`) propagates. -/
def setEventsLoop (script : List (Except TErr Unit)) (s : CtrlState)
    (events unavailable : List String) : NegotiationOut × CtrlState :=
  match script with
  | [] => (.scriptOut, s)
  | resp :: rest =>
    let s := s.logAct (.setEventsQ events)
    match resp with
    | .ok _ => (.finished false events unavailable, s)
    | .error (.errorReply msg) =>
      if pyContains msg "Unrecognized event" then
        setEventsLoop rest s
          (events.filter (fun x => x ≠ parseUnrecognizedEvent msg))
          (listUnion unavailable [parseUnrecognizedEvent msg])
      else (.finished true events unavailable, s)
    | .error .torCtlClosed => (.finished true events unavailable, s.closeEffect)
    | .error e => (.raised e, s)

/-- `Controller.setControllerEvents` (lines 920-1004): union in the
mandatory `REQ_EVENTS`, drop events already known to fail
(`DROP_FAILED_EVENTS` is `True`), prefilter against the `events/names`
introspection when available, then negotiate by trial and error.  On a
completed (non-abandoned) negotiation the applied set is remembered and
returned; an abandoned negotiation leaves `controllerEvents` unchanged and
returns the empty list.  When detached, the request is only remembered. -/
def setControllerEvents (t : Transport) (s : CtrlState) (events : List String) :
    SCEOut × CtrlState :=
  if s.alive then
    let ev1 := listUnion (dedup events) REQ_EVENTS_KEYS
    let unavailable0 := listInter ev1 s.failedEvents
    let ev2 := listDiff ev1 s.failedEvents
    let r := getInfo t s "events/names" .pyNone true
    let s := r.2
    let ve := okOr r.1 .pyNone
    let ev3 :=
      if pyTruthy ve then listInter ev2 (pySplitWs (asStr ve)) else ev2
    let unavailable1 :=
      if pyTruthy ve then listUnion unavailable0 (listDiff ev2 (pySplitWs (asStr ve)))
      else unavailable0
    match setEventsLoop t.setEventsResps s ev3 unavailable1 with
    | (.finished isAbandoned evF unavailF, s) =>
      let s := { s with failedEvents := listUnion s.failedEvents unavailF }
      if ¬ isAbandoned then (.ret evF, { s with controllerEvents := evF })
      else (.ret [], s)
    | (.raised e, s) => (.raised e, s)
    | (.scriptOut, s) => (.hung, s)
  else
    (.ret events, { s with controllerEvents := events })

end Controller

/-- The ordering asserted by the specification for `setOption`, stated over
an action trace: every cache eviction for the written option precedes the
transport write.  (The code does the opposite: it writes first.) -/
def claimEvictionsPrecedeWrite (tr : List Action) : Prop :=
  ∀ i j p ft q, tr.get? i = some (.evictConf p ft) → tr.get? j = some (.setConfQ q) → i < j

/-- The controller state as set up by `Controller.__init__` (lines 237-267):
no connection, empty caches (`_cachedParam` maps every key to `""`). -/
def initialState : CtrlState where
  alive := false
  status := .closed
  statusTime := 0
  clock := 0
  lastHeartbeat := 0
  isReset := false
  cachedParam := fun _ => .pyStr ""
  cachedConf := fun _ => none
  controllerEvents := []
  failedEvents := []
  fingerprintMappings := none
  fingerprintLookupCache := []
  fingerprintsAttachedCache := none
  nicknameLookupCache := []
  exitPolicyChecker := none
  exitPolicyLookupCache := []
  log := []

/-- A freshly attached live session (state right after a successful `init`
with empty caches), used by the concrete witnesses. -/
def witS : CtrlState := { initialState with alive := true, status := .init }

/-- A concrete benign transport used by the concrete witnesses. -/
def witT : Transport where
  infoResp := fun p => if p = "version" then .ok (some "0.2.1.24") else .ok none
  optionResp := fun _ => .ok []
  setOptionResp := fun _ _ => .ok ()
  setEventsResps := []
  netStatusAll := .ok []
  netStatusResp := fun _ => .ok []
  buildRouterDown := fun _ _ => false

/-- A transport whose GETCONF reply succeeds but carries no value (the
daemon reports the option as unset). -/
def witT2 : Transport := { witT with optionResp := fun _ => .ok [("SomeOption", none)] }

/-- A live session whose option cache holds a pre-write entry for option
`x` under the `str` shape. -/
def witSconf : CtrlState :=
  { witS with cachedConf := fun k => if k = ("x", "str") then some (.pyStr "old") else none }

/-- A live session observed at clock time 5 with no heartbeat yet. -/
def witSclock : CtrlState := { witS with clock := 5 }

/-- A live relay session: own address `5.6.7.8`, own fingerprint `MYFP`,
`ORPort` cached as the string `"9001"`, directory map already materialized
(and, as for a relay not yet listed in the consensus, empty). -/
def witSown : CtrlState :=
  { witS with
    cachedParam := fun k =>
      if k = "address" then .pyStr "5.6.7.8"
      else if k = "fingerprint" then .pyStr "MYFP"
      else .pyStr ""
    cachedConf := fun k => if k = ("orport", "str") then some (.pyStr "9001") else none
    fingerprintMappings := some [] }

/-- A live session that has already memoized a failed fingerprint lookup for
`("9.9.9.9", 80)`. -/
def witSfpc : CtrlState :=
  { witS with fingerprintLookupCache := [(("9.9.9.9", .pyInt 80), none)] }

/-- A transport that rejects the first `set_events` submission with an
`Unrecognized event` reply and accepts the retry. -/
def witT3 : Transport :=
  { witT with setEventsResps :=
      [.error (.errorReply "552 Unrecognized event \"BAD\""), .ok ()] }

/-- A transport that rejects the `set_events` submission with a protocol
error that is not an `Unrecognized event` rejection. -/
def witT4 : Transport :=
  { witT with setEventsResps := [.error (.errorReply "513 syntax error")] }

end TorTools

namespace TorTools

/-! ## Theorems -/

/-! State-plumbing helper lemmas shared by the cache theorems. -/

@[simp] theorem setParam_cachedParam_self (s : CtrlState) (k : String) (v : PyVal) :
    (s.setParam k v).cachedParam k = v := by
  simp [CtrlState.setParam]

@[simp] theorem setParam_alive (s : CtrlState) (k : String) (v : PyVal) :
    (s.setParam k v).alive = s.alive := rfl

@[simp] theorem logAct_cachedParam (s : CtrlState) (a : Action) :
    (s.logAct a).cachedParam = s.cachedParam := rfl

@[simp] theorem logAct_alive (s : CtrlState) (a : Action) :
    (s.logAct a).alive = s.alive := rfl

@[simp] theorem closeEffect_cachedParam (s : CtrlState) :
    (s.closeEffect).cachedParam = s.cachedParam := rfl

@[simp] theorem closeEffect_alive (s : CtrlState) :
    (s.closeEffect).alive = false := rfl

/-- Helper: a live first `getInfo` call that produced a truthy `.ok` value
for a cacheable key leaves that value in the parameter cache. -/
theorem getInfo_post_cached (t : Transport) (s : CtrlState) (param : String)
    (d : PyVal) (sup : Bool) (v : PyVal)
    (hc : param ∈ CACHE_ARGS) (ha : s.alive = true)
    (h1 : (Controller.getInfo t s param d sup).1 = .ok v)
    (hv : pyTruthy v = true) :
    ((Controller.getInfo t s param d sup).2).cachedParam param = v := by
  unfold Controller.getInfo at h1 ⊢
  rw [if_pos ha] at h1 ⊢
  by_cases hcache : param ∈ CACHE_ARGS ∧ pyTruthy (s.cachedParam param) = true
  · rw [if_pos hcache] at h1 ⊢
    exact Except.ok.inj h1
  · rw [if_neg hcache] at h1 ⊢
    cases hres : t.infoResp param with
    | ok o =>
      cases o with
      | some w =>
        rw [hres] at h1
        dsimp only at h1 ⊢
        have hvw : PyVal.pyStr w = v := Except.ok.inj h1
        rw [if_pos ⟨by rw [hvw]; exact hv, hc⟩]
        simp [hvw]
      | none =>
        rw [hres] at h1
        dsimp only at h1 ⊢
        have hvd : d = v := Except.ok.inj h1
        rw [if_pos ⟨by rw [hvd]; exact hv, hc⟩]
        simp [hvd]
    | error e =>
      rw [hres] at h1
      dsimp only at h1 ⊢
      cases sup with
      | false => simp at h1
      | true =>
        have hvd : d = v := by simpa using h1
        rw [if_pos ⟨by rw [hvd]; exact hv, hc⟩]
        simp [hvd]

/-- C1: for every key in `CACHE_ARGS`, after a `getInfo` call succeeds with a
non-empty (truthy) value, a second `getInfo` call for the same key with no
intervening invalidation (no close transition, no cache-clearing event)
returns the cached value and leaves the state — in particular the transport
query log — untouched: the transport's `get_info` is not invoked again. -/
theorem getInfo_second_call_serves_cache (t : Transport) (s : CtrlState)
    (param : String) (d₁ d₂ : PyVal) (sup₁ sup₂ : Bool) (v : PyVal)
    (hc : param ∈ CACHE_ARGS) (ha : s.alive = true)
    (h1 : (Controller.getInfo t s param d₁ sup₁).1 = .ok v)
    (hv : pyTruthy v = true)
    (ha' : ((Controller.getInfo t s param d₁ sup₁).2).alive = true) :
    Controller.getInfo t ((Controller.getInfo t s param d₁ sup₁).2) param d₂ sup₂
      = (.ok v, (Controller.getInfo t s param d₁ sup₁).2) := by
  have hpost := getInfo_post_cached t s param d₁ sup₁ v hc ha h1 hv
  rw [Controller.getInfo, if_pos ha', if_pos ⟨hc, by rw [hpost]; exact hv⟩, hpost]

/-- Witness for C1: a concrete live session; the first `getInfo "version"`
hits the transport, the second serves the cache and does not touch the log. -/
theorem getInfo_second_call_serves_cache_witness :
    Controller.getInfo witT ((Controller.getInfo witT witS "version" .pyNone true).2)
        "version" .pyNone true
      = (.ok (.pyStr "0.2.1.24"), (Controller.getInfo witT witS "version" .pyNone true).2) :=
  getInfo_second_call_serves_cache witT witS "version" .pyNone .pyNone true true
    (.pyStr "0.2.1.24") (by decide) rfl rfl rfl rfl

@[simp] theorem logAct_cachedConf (s : CtrlState) (a : Action) :
    (s.logAct a).cachedConf = s.cachedConf := rfl

/-- Helper: the `map`-shape result dict of `_getOption` is empty when every
reply pair carries a `None` value. -/
theorem buildConfMap_all_none (pairs : List (String × Option String))
    (h : ∀ p ∈ pairs, p.2 = (none : Option String)) :
    Controller.buildConfMap pairs = [] := by
  have aux : ∀ (l : List (String × Option String)) (m : List (PyVal × PyVal)),
      (∀ p ∈ l, p.2 = (none : Option String)) →
      l.foldl (fun m p => match p.2 with
        | none => m
        | some v => Controller.dictAppendStr m p.1 v) m = m := by
    intro l
    induction l with
    | nil => intro m _; rfl
    | cons p ps ih =>
      intro m hall
      have hp : p.2 = none := hall p (List.mem_cons_self p ps)
      rw [List.foldl_cons, hp]
      exact ih m (fun q hq => hall q (List.mem_cons_of_mem p hq))
  exact aux pairs [] h

/-- Helper for C10: a live `_getOption` call with a cache miss whose
transport reply succeeds but carries no values (`str` fetch type, non-empty
reply list) returns the caller default and stores nothing: the post state is
exactly the pre state plus the logged transport query. -/
theorem getOptionByType_str_empty (t : Transport) (s : CtrlState) (param : String)
    (default : PyVal) (sup : Bool) (k : String) (rest : List (String × Option String))
    (ha : s.alive = true)
    (hmiss : s.cachedConf (pyLower param, "str") = none)
    (h0 : t.optionResp param = .ok ((k, none) :: rest)) :
    Controller.getOptionByType t s param default "str" sup
      = (.ok default, s.logAct (.getConfQ param)) := by
  unfold Controller.getOptionByType
  rw [if_neg (by decide), if_pos ha, hmiss, h0]
  rfl

/-- Helper for C10: same as `getOptionByType_str_empty` for the `list` fetch
type (every reply pair carries a `None` value). -/
theorem getOptionByType_list_empty (t : Transport) (s : CtrlState) (param : String)
    (default : PyVal) (sup : Bool) (pairs : List (String × Option String))
    (ha : s.alive = true)
    (hmiss : s.cachedConf (pyLower param, "list") = none)
    (h0 : t.optionResp param = .ok pairs)
    (hempty : pairs.filterMap (fun p => p.2) = []) :
    Controller.getOptionByType t s param default "list" sup
      = (.ok default, s.logAct (.getConfQ param)) := by
  unfold Controller.getOptionByType
  rw [if_neg (by decide), if_pos ha, hmiss, h0]
  dsimp only
  rw [hempty]
  rfl

/-- Helper for C10: the `map` fetch type with a confirmed-empty reply stores
nothing either, but returns the empty dict — not the caller default —
because Python 2's `{} == []` is `False` at the final default check. -/
theorem getOptionByType_map_empty (t : Transport) (s : CtrlState) (param : String)
    (default : PyVal) (sup : Bool) (pairs : List (String × Option String))
    (ha : s.alive = true)
    (hmiss : s.cachedConf (pyLower param, "map") = none)
    (h0 : t.optionResp param = .ok pairs)
    (hempty : Controller.buildConfMap pairs = []) :
    Controller.getOptionByType t s param default "map" sup
      = (.ok (.pyDict []), s.logAct (.getConfQ param)) := by
  unfold Controller.getOptionByType
  rw [if_neg (by decide), if_pos ha, hmiss, h0]
  dsimp only
  rw [hempty]
  rfl

/-- C10 counterexample: with the `map` fetch type, a successful GETCONF that
yields no values makes `_getOption` return the empty dict, not the
caller-supplied default (here `"d"`), refuting the claim that an empty result
always returns the default. -/
theorem getOption_map_empty_returns_empty_dict_not_default :
    (Controller.getOptionByType witT witS "HiddenServiceOptions"
        (.pyStr "d") "map" true).1 = .ok (.pyDict [])
  ∧ ¬ ((Controller.getOptionByType witT witS "HiddenServiceOptions"
        (.pyStr "d") "map" true).1 = .ok (.pyStr "d")) := by
  constructor
  · rfl
  · intro h
    exact PyVal.noConfusion (Except.ok.inj h)

/-- C10 (amended): a confirmed-empty `_getOption` result is never cached —
for the `str` and `list` fetch types the call returns the caller default,
for the `map` fetch type it returns the empty dict; in every case the option
cache gains no entry for the key, so an immediately following call for the
same option consults the transport again (the query log grows by one
transport query per call). -/
theorem getOption_empty_result_not_cached (t : Transport) (s : CtrlState)
    (param : String) (default : PyVal) (sup : Bool) (k : String)
    (rest : List (String × Option String))
    (ha : s.alive = true)
    (hmStr : s.cachedConf (pyLower param, "str") = none)
    (hmList : s.cachedConf (pyLower param, "list") = none)
    (hmMap : s.cachedConf (pyLower param, "map") = none)
    (h0 : t.optionResp param = .ok ((k, none) :: rest))
    (hall : ∀ p ∈ (k, none) :: rest, p.2 = (none : Option String)) :
    Controller.getOptionByType t s param default "str" sup
      = (.ok default, s.logAct (.getConfQ param))
  ∧ Controller.getOptionByType t s param default "list" sup
      = (.ok default, s.logAct (.getConfQ param))
  ∧ Controller.getOptionByType t s param default "map" sup
      = (.ok (.pyDict []), s.logAct (.getConfQ param))
  ∧ ((Controller.getOptionByType t s param default "str" sup).2).cachedConf
      (pyLower param, "str") = none
  ∧ (Controller.getOptionByType t
        ((Controller.getOptionByType t s param default "str" sup).2)
        param default "str" sup).2.log
      = s.log ++ [.getConfQ param, .getConfQ param] := by
  have hStr := getOptionByType_str_empty t s param default sup k rest ha hmStr h0
  have hList := getOptionByType_list_empty t s param default sup ((k, none) :: rest)
    ha hmList h0 (List.filterMap_eq_nil_iff.mpr hall)
  have hMap := getOptionByType_map_empty t s param default sup ((k, none) :: rest)
    ha hmMap h0 (buildConfMap_all_none _ hall)
  refine ⟨hStr, hList, hMap, ?_, ?_⟩
  · rw [hStr]
    exact hmStr
  · rw [hStr]
    have hStr2 := getOptionByType_str_empty t (s.logAct (.getConfQ param)) param default sup
      k rest ha hmStr h0
    rw [hStr2]
    simp [CtrlState.logAct]

/-- Witness for C10 (amended): the concrete transport reports `SomeOption` as
unset; the `str`-shape lookup returns the default and only logs the query. -/
theorem getOption_empty_result_not_cached_witness :
    Controller.getOptionByType witT2 witS "SomeOption" (.pyStr "dflt") "str" true
      = (.ok (.pyStr "dflt"), witS.logAct (.getConfQ "SomeOption")) :=
  (getOption_empty_result_not_cached witT2 witS "SomeOption" (.pyStr "dflt") true
    "SomeOption" [] rfl rfl rfl rfl rfl (by simp)).1

@[simp] theorem setConf_log (s : CtrlState) (k : String × String) (v : Option PyVal) :
    (s.setConf k v).log = s.log := rfl

@[simp] theorem setConf_alive (s : CtrlState) (k : String × String) (v : Option PyVal) :
    (s.setConf k v).alive = s.alive := rfl

@[simp] theorem logAct_log (s : CtrlState) (a : Action) :
    (s.logAct a).log = s.log ++ [a] := rfl

/-- The cache after one eviction step: the step's own key is absent, every
other key is untouched. -/
theorem evictStep_cachedConf (param : String) (st : CtrlState) (ft : String)
    (k : String × String) :
    (Controller.evictStep param st ft).cachedConf k
      = if k = (pyLower param, ft) then none else st.cachedConf k := by
  unfold Controller.evictStep
  by_cases h1 : (st.cachedConf (pyLower param, ft)).isSome
  · rw [if_pos h1]
    by_cases h2 : k = (pyLower param, ft)
    · subst h2; simp [CtrlState.setConf, CtrlState.logAct]
    · simp [CtrlState.setConf, CtrlState.logAct, h2]
  · rw [if_neg h1]
    by_cases h2 : k = (pyLower param, ft)
    · subst h2
      rw [if_pos rfl]
      exact Option.not_isSome_iff_eq_none.mp h1
    · rw [if_neg h2]

@[simp] theorem evictStep_alive (param : String) (st : CtrlState) (ft : String) :
    (Controller.evictStep param st ft).alive = st.alive := by
  unfold Controller.evictStep
  split <;> rfl

/-- One eviction step appends at most its own eviction record to the log. -/
theorem evictStep_log (param : String) (st : CtrlState) (ft : String) :
    ∃ evs, (Controller.evictStep param st ft).log = st.log ++ evs
      ∧ ∀ a ∈ evs, a = Action.evictConf (pyLower param) ft := by
  unfold Controller.evictStep
  split
  · exact ⟨[Action.evictConf (pyLower param) ft], by simp, by simp⟩
  · exact ⟨[], by simp, by simp⟩

/-- The cache-flush fold of `setOption`: a key is gone afterwards iff it is
one of the flushed keys, everything else is untouched. -/
theorem foldl_evictStep_cachedConf (param : String) :
    ∀ (l : List String) (st : CtrlState) (k : String × String),
      ((l.foldl (Controller.evictStep param) st).cachedConf k)
        = if ∃ ft ∈ l, k = (pyLower param, ft) then none else st.cachedConf k
  | [], st, k => by simp
  | ft :: fts, st, k => by
    rw [List.foldl_cons, foldl_evictStep_cachedConf param fts _ k, evictStep_cachedConf]
    by_cases hmem : ∃ ft' ∈ fts, k = (pyLower param, ft')
    · obtain ⟨ft', hft', hk⟩ := hmem
      rw [if_pos ⟨ft', hft', hk⟩, if_pos ⟨ft', List.mem_cons_of_mem ft hft', hk⟩]
    · rw [if_neg hmem]
      by_cases hk : k = (pyLower param, ft)
      · rw [if_pos hk, if_pos ⟨ft, List.mem_cons_self ft fts, hk⟩]
      · have hno : ¬ ∃ ft' ∈ ft :: fts, k = (pyLower param, ft') := by
          rintro ⟨ft', hmem', hk'⟩
          rcases List.mem_cons.mp hmem' with h | h
          · exact hk (h ▸ hk')
          · exact hmem ⟨ft', h, hk'⟩
        rw [if_neg hk, if_neg hno]

@[simp] theorem foldl_evictStep_alive (param : String) :
    ∀ (l : List String) (st : CtrlState),
      ((l.foldl (Controller.evictStep param) st).alive) = st.alive
  | [], _ => rfl
  | ft :: fts, st => by
    rw [List.foldl_cons, foldl_evictStep_alive param fts]
    simp

/-- The cache-flush fold only appends eviction records to the log. -/
theorem foldl_evictStep_log (param : String) :
    ∀ (l : List String) (st : CtrlState),
      ∃ evs, (l.foldl (Controller.evictStep param) st).log = st.log ++ evs
        ∧ ∀ a ∈ evs, ∃ ft, a = Action.evictConf (pyLower param) ft
  | [], st => ⟨[], by simp, by simp⟩
  | ft :: fts, st => by
    obtain ⟨evs1, h1, hall1⟩ := evictStep_log param st ft
    obtain ⟨evs2, h2, hall2⟩ := foldl_evictStep_log param fts (Controller.evictStep param st ft)
    refine ⟨evs1 ++ evs2, ?_, ?_⟩
    · rw [List.foldl_cons, h2, h1, List.append_assoc]
    · intro a ha
      rcases List.mem_append.mp ha with h | h
      · exact ⟨ft, hall1 a h⟩
      · exact hall2 a h

/-- Helper: a live `_getOption` call that misses the cache consults the
transport: its query is appended to the log, whatever the reply. -/
theorem getOptionByType_miss_queries_transport (t : Transport) (s : CtrlState)
    (param : String) (default : PyVal) (sup : Bool) (ft : String)
    (hft : ft = "str" ∨ ft = "list" ∨ ft = "map")
    (ha : s.alive = true)
    (hmiss : s.cachedConf (pyLower param, ft) = none) :
    ((Controller.getOptionByType t s param default ft sup).2).log
      = s.log ++ [.getConfQ param] := by
  have hftmem : ¬ ft ∉ ["str", "list", "map"] := by
    rcases hft with h | h | h <;> simp [h]
  unfold Controller.getOptionByType
  rw [if_neg hftmem, if_pos ha, hmiss]
  cases hres : t.optionResp param with
  | ok pairs =>
    dsimp only
    by_cases h1 : ft = "str"
    · rw [if_pos h1]
      cases pairs with
      | nil => simp
      | cons p ps =>
        cases p with
        | mk k v => dsimp only; split <;> (try split) <;> simp
    · rw [if_neg h1]
      by_cases h2 : ft = "list"
      · rw [if_pos h2]
        dsimp only
        split <;> simp
      · rw [if_neg h2]
        dsimp only
        split <;> simp
  | error e =>
    dsimp only
    split <;> split <;> simp [CtrlState.closeEffect]

/-- C2 counterexample: on a live session whose option cache holds a
pre-write entry for `x`, the trace of a successful `setOption("x", "v")` is
`[write, evict]`: the eviction does *not* precede the transport write, so
"evicts ... before issuing the write" fails as stated. -/
theorem setOption_writes_before_evicting :
    ¬ claimEvictionsPrecedeWrite
        ((Controller.setOption witT witSconf "x" (.pyStr "v")).2.log.drop
          witSconf.log.length) := by
  intro h
  have h10 := h 1 0 "x" "str" "x" rfl rfl
  omega

/-- C2 (amended): `setOption` evicts the three result-shape cache entries of
the written option *after* the transport write succeeds (not before).  On
success the call raises nothing; for a non-`ExitPolicy` option all three
`(name.lower(), shape)` entries are absent afterwards, the log gains the
write followed only by eviction records, the session stays live, and a
`getOption` immediately following consults the transport (so it cannot be
served from a pre-write cache entry); for `ExitPolicy` (case-insensitively)
the exit-policy chain is rebuilt and its lookup cache cleared immediately. -/
theorem setOption_success_evicts_after_write (t : Transport) (s : CtrlState)
    (param : String) (value : PyVal)
    (ha : s.alive = true) (hok : t.setOptionResp param value = .ok ()) :
    (Controller.setOption t s param value).1 = none
  ∧ (pyLower param ≠ "exitpolicy" →
      ((Controller.setOption t s param value).2.cachedConf (pyLower param, "str") = none
       ∧ (Controller.setOption t s param value).2.cachedConf (pyLower param, "list") = none
       ∧ (Controller.setOption t s param value).2.cachedConf (pyLower param, "map") = none
       ∧ (∃ evs, (Controller.setOption t s param value).2.log
            = s.log ++ Action.setConfQ param :: evs
            ∧ ∀ a ∈ evs, ∃ ft, a = Action.evictConf (pyLower param) ft)
       ∧ (Controller.setOption t s param value).2.alive = true
       ∧ ∀ (d : PyVal) (sup : Bool) (ft : String), ft = "str" ∨ ft = "list" ∨ ft = "map" →
           (Controller.getOptionByType t (Controller.setOption t s param value).2
              param d ft sup).2.log
             = (Controller.setOption t s param value).2.log ++ [.getConfQ param]))
  ∧ (pyLower param = "exitpolicy" →
      ((Controller.setOption t s param value).2.exitPolicyLookupCache = []
       ∧ Action.rebuildExitPolicy ∈ (Controller.setOption t s param value).2.log)) := by
  unfold Controller.setOption
  rw [if_pos ha, hok]
  dsimp only
  refine ⟨?_, ?_, ?_⟩
  · split <;> rfl
  · intro hep
    rw [if_neg hep]
    have hcc := foldl_evictStep_cachedConf param ["str", "list", "map"]
      (s.logAct (.setConfQ param))
    have hstr := hcc (pyLower param, "str")
    have hlist := hcc (pyLower param, "list")
    have hmap := hcc (pyLower param, "map")
    rw [if_pos ⟨"str", by simp⟩] at hstr
    rw [if_pos ⟨"list", by simp⟩] at hlist
    rw [if_pos ⟨"map", by simp⟩] at hmap
    have halive : (["str", "list", "map"].foldl (Controller.evictStep param)
        (s.logAct (.setConfQ param))).alive = true := by
      rw [foldl_evictStep_alive]; simpa using ha
    refine ⟨hstr, hlist, hmap, ?_, halive, ?_⟩
    · obtain ⟨evs, he, hall⟩ := foldl_evictStep_log param ["str", "list", "map"]
        (s.logAct (.setConfQ param))
      exact ⟨evs, by rw [he]; simp, hall⟩
    · intro d sup ft hft
      apply getOptionByType_miss_queries_transport t _ param d sup ft hft halive
      rcases hft with h | h | h <;> subst h
      · exact hstr
      · exact hlist
      · exact hmap
  · intro hep
    rw [if_pos hep]
    constructor
    · rfl
    · simp

/-- Witness for C2 (amended): the concrete pre-populated session; after the
successful write, the `str` entry is gone and the call raised nothing. -/
theorem setOption_success_evicts_after_write_witness :
    ((Controller.setOption witT witSconf "x" (.pyStr "v")).2).cachedConf
        (pyLower "x", "str") = none
  ∧ (Controller.setOption witT witSconf "x" (.pyStr "v")).1 = none := by
  have h := setOption_success_evicts_after_write witT witSconf "x" (.pyStr "v") rfl rfl
  exact ⟨(h.2.1 (by decide)).1, h.1⟩

/-! Heartbeat / lookup-cache preservation lemmas for the event theorems. -/

@[simp] theorem setParam_lastHeartbeat (s : CtrlState) (k : String) (v : PyVal) :
    (s.setParam k v).lastHeartbeat = s.lastHeartbeat := rfl

@[simp] theorem logAct_lastHeartbeat (s : CtrlState) (a : Action) :
    (s.logAct a).lastHeartbeat = s.lastHeartbeat := rfl

@[simp] theorem closeEffect_lastHeartbeat (s : CtrlState) :
    (s.closeEffect).lastHeartbeat = s.lastHeartbeat := rfl

@[simp] theorem setConf_lastHeartbeat (s : CtrlState) (k : String × String) (v : Option PyVal) :
    (s.setConf k v).lastHeartbeat = s.lastHeartbeat := rfl

@[simp] theorem setParam_fingerprintLookupCache (s : CtrlState) (k : String) (v : PyVal) :
    (s.setParam k v).fingerprintLookupCache = s.fingerprintLookupCache := rfl

@[simp] theorem logAct_fingerprintLookupCache (s : CtrlState) (a : Action) :
    (s.logAct a).fingerprintLookupCache = s.fingerprintLookupCache := rfl

@[simp] theorem closeEffect_fingerprintLookupCache (s : CtrlState) :
    (s.closeEffect).fingerprintLookupCache = s.fingerprintLookupCache := rfl

/-- `getInfo` never touches the heartbeat. -/
@[simp] theorem getInfo_lastHeartbeat (t : Transport) (s : CtrlState) (param : String)
    (d : PyVal) (sup : Bool) :
    ((Controller.getInfo t s param d sup).2).lastHeartbeat = s.lastHeartbeat := by
  unfold Controller.getInfo
  split
  · split
    · rfl
    · cases t.infoResp param with
      | ok o =>
        cases o
        · dsimp only; split <;> rfl
        · dsimp only; split <;> rfl
      | error e => dsimp only; split <;> split <;> rfl
  · split <;> rfl

/-- `getInfo` never touches the fingerprint lookup cache. -/
@[simp] theorem getInfo_fingerprintLookupCache (t : Transport) (s : CtrlState)
    (param : String) (d : PyVal) (sup : Bool) :
    ((Controller.getInfo t s param d sup).2).fingerprintLookupCache
      = s.fingerprintLookupCache := by
  unfold Controller.getInfo
  split
  · split
    · rfl
    · cases t.infoResp param with
      | ok o =>
        cases o
        · dsimp only; split <;> rfl
        · dsimp only; split <;> rfl
      | error e => dsimp only; split <;> split <;> rfl
  · split <;> rfl

/-- `_getFingerprintMappings` never touches the heartbeat. -/
@[simp] theorem getFingerprintMappings_lastHeartbeat (t : Transport) (s : CtrlState)
    (ns : List NsEntry) :
    ((Controller.getFingerprintMappings t s ns).2).lastHeartbeat = s.lastHeartbeat := by
  unfold Controller.getFingerprintMappings
  split
  · split
    · split <;> rfl
    · rfl
  · rfl

/-- A fold whose step preserves a state projection preserves it overall. -/
theorem foldl_preserves_proj {α β γ : Type} (g : CtrlState → γ)
    (f : β × CtrlState → α → β × CtrlState)
    (hf : ∀ acc x, g (f acc x).2 = g acc.2) :
    ∀ (l : List α) (acc : β × CtrlState), g ((l.foldl f acc).2) = g acc.2 := by
  intro l
  induction l with
  | nil => intro acc; rfl
  | cons x xs ih => intro acc; rw [List.foldl_cons, ih, hf]

/-- The per-descriptor update step of `new_desc_event` only appends a log
record: every state projection unaffected by `logAct` is preserved. -/
theorem newDescStep_preserves {γ : Type} (t : Transport) (g : CtrlState → γ)
    (hlog : ∀ (st : CtrlState) a, g (st.logAct a) = g st) :
    ∀ (acc : List (String × List (Int × String)) × CtrlState) (fp : String),
      g ((Controller.newDescStep t acc fp).2) = g acc.2 := by
  intro acc fp
  unfold Controller.newDescStep
  cases t.netStatusResp ("id/" ++ fp) with
  | ok nsLookup =>
    dsimp only
    split
    · rw [hlog]
    · cases nsLookup with
      | nil => rw [hlog]
      | cons newRelay rest => dsimp only; split <;> rw [hlog]
  | error e => dsimp only; rw [hlog]

@[simp] theorem getFingerprintMappings_fingerprintLookupCache (t : Transport)
    (s : CtrlState) (ns : List NsEntry) :
    ((Controller.getFingerprintMappings t s ns).2).fingerprintLookupCache
      = s.fingerprintLookupCache := by
  unfold Controller.getFingerprintMappings
  split
  · split
    · split <;> rfl
    · rfl
  · rfl

@[simp] theorem foldl_newDescStep_lastHeartbeat (t : Transport)
    (l : List String) (acc : List (String × List (Int × String)) × CtrlState) :
    ((l.foldl (Controller.newDescStep t) acc).2).lastHeartbeat = acc.2.lastHeartbeat :=
  foldl_preserves_proj (fun st => st.lastHeartbeat) (Controller.newDescStep t)
    (newDescStep_preserves t (fun st => st.lastHeartbeat) (fun _ _ => rfl)) l acc

@[simp] theorem foldl_newDescStep_fingerprintLookupCache (t : Transport)
    (l : List String) (acc : List (String × List (Int × String)) × CtrlState) :
    ((l.foldl (Controller.newDescStep t) acc).2).fingerprintLookupCache
      = acc.2.fingerprintLookupCache :=
  foldl_preserves_proj (fun st => st.fingerprintLookupCache) (Controller.newDescStep t)
    (newDescStep_preserves t (fun st => st.fingerprintLookupCache) (fun _ _ => rfl)) l acc

/-- C7 counterexample: `msg_event` — the handler for notice/log message
events, here receiving the reload notice, which it does process (status
flips to `INIT`) — does not update the heartbeat: at clock time 5 the
heartbeat stays 0. -/
theorem msg_event_does_not_update_heartbeat :
    (Controller.msgEvent witSclock "NOTICE"
      "Received reload signal (hup). Reloading config and resetting internal state.").status
      = TorState.init
  ∧ (Controller.msgEvent witSclock "NOTICE"
      "Received reload signal (hup). Reloading config and resetting internal state.").lastHeartbeat
      = 0
  ∧ ¬ ((Controller.msgEvent witSclock "NOTICE"
      "Received reload signal (hup). Reloading config and resetting internal state.").lastHeartbeat
      = witSclock.clock) := by
  refine ⟨by decide, by decide, by decide⟩

/-- C7 (amended): every transport event handler except the notice/log
message handler (`msg_event`) sets the heartbeat to the handling time:
network status, new consensus, new descriptor, circuit status, stream,
connection, stream/global bandwidth, address map, unknown and buildtimeout
events all leave `lastHeartbeat` equal to the clock. -/
theorem event_handlers_update_heartbeat (t : Transport) (s : CtrlState)
    (nslist : List NsEntry) (idlist : List String) :
    (Controller.nsEvent t s nslist).lastHeartbeat = s.clock
  ∧ (Controller.newConsensusEvent t s nslist).lastHeartbeat = s.clock
  ∧ (Controller.newDescEvent t s idlist).lastHeartbeat = s.clock
  ∧ (Controller.circStatusEvent s).lastHeartbeat = s.clock
  ∧ (Controller.streamStatusEvent s).lastHeartbeat = s.clock
  ∧ (Controller.orConnStatusEvent s).lastHeartbeat = s.clock
  ∧ (Controller.streamBwEvent s).lastHeartbeat = s.clock
  ∧ (Controller.bandwidthEvent s).lastHeartbeat = s.clock
  ∧ (Controller.addressMappedEvent s).lastHeartbeat = s.clock
  ∧ (Controller.unknownEvent s).lastHeartbeat = s.clock
  ∧ (Controller.buildtimeoutSetEvent s).lastHeartbeat = s.clock := by
  refine ⟨?_, ?_, ?_, rfl, rfl, rfl, rfl, rfl, rfl, rfl, rfl⟩
  · unfold Controller.nsEvent Controller.clearConsensusParams
    dsimp only
    split <;> (try split) <;> simp
  · unfold Controller.newConsensusEvent Controller.clearConsensusParams
    dsimp only
    split <;> simp
  · unfold Controller.newDescEvent
    dsimp only
    split <;> (try split) <;> simp

/-- C8 (code bug, evaluated at the failing input): on a live relay session
whose own address is `5.6.7.8`, own fingerprint `MYFP` and `ORPort` value
`"9001"`, resolving `("5.6.7.8", 9001)` — the own address with the matching
ORPort — does *not* return the cached own fingerprint: the int port is
compared against the string option value (always unequal in Python 2), so
the code falls through to the directory map and returns `None` here.  With
the port unspecified the own fingerprint is returned, and the offending
comparison is indeed `False`. -/
theorem relayFingerprint_own_port_match_misses :
    (Controller.getRelayFingerprint witT witSown "5.6.7.8" (.pyInt 9001)).1 = none
  ∧ (Controller.getRelayFingerprint witT witSown "5.6.7.8" .pyNone).1 = some "MYFP"
  ∧ pyEq (.pyInt 9001) (.pyStr "9001") = false := by
  refine ⟨rfl, rfl, rfl⟩

/-- C9: a memoized failed resolution is served from the lookup cache: when
the cache maps `(address, port)` to `None`, `getRelayFingerprint` returns
`None` and leaves the state — including the query log and the directory
map — completely untouched (no resolution heuristic runs); and the
consensus-update and descriptor-update events clear that lookup cache. -/
theorem relayFingerprint_memoizes_failures (t : Transport) (s : CtrlState)
    (a : String) (p : PyVal)
    (ha : s.alive = true)
    (hcache : fpcLookup s.fingerprintLookupCache a p = some none) :
    Controller.getRelayFingerprint t s a p = (none, s)
  ∧ (∀ nslist, (Controller.newConsensusEvent t s nslist).fingerprintLookupCache = [])
  ∧ (∀ idlist, (Controller.newDescEvent t s idlist).fingerprintLookupCache = []) := by
  refine ⟨?_, ?_, ?_⟩
  · unfold Controller.getRelayFingerprint
    rw [if_pos ha, hcache]
  · intro nslist
    unfold Controller.newConsensusEvent Controller.clearConsensusParams
    dsimp only
    split <;> simp
  · intro idlist
    unfold Controller.newDescEvent
    dsimp only
    split <;> (try split) <;> simp

/-- Witness for C9: the concrete session with a memoized `None` for
`("9.9.9.9", 80)` returns `None` and is left untouched. -/
theorem relayFingerprint_memoizes_failures_witness :
    Controller.getRelayFingerprint witT witSfpc "9.9.9.9" (.pyInt 80) = (none, witSfpc) :=
  (relayFingerprint_memoizes_failures witT witSfpc "9.9.9.9" (.pyInt 80) rfl rfl).1

/-! Plumbing for the subscription-negotiation theorem. -/

@[simp] theorem logAct_controllerEvents (s : CtrlState) (a : Action) :
    (s.logAct a).controllerEvents = s.controllerEvents := rfl

@[simp] theorem setParam_controllerEvents (s : CtrlState) (k : String) (v : PyVal) :
    (s.setParam k v).controllerEvents = s.controllerEvents := rfl

@[simp] theorem closeEffect_controllerEvents (s : CtrlState) :
    (s.closeEffect).controllerEvents = s.controllerEvents := rfl

/-- `getInfo` never touches the remembered controller-event set. -/
@[simp] theorem getInfo_controllerEvents (t : Transport) (s : CtrlState) (param : String)
    (d : PyVal) (sup : Bool) :
    ((Controller.getInfo t s param d sup).2).controllerEvents = s.controllerEvents := by
  unfold Controller.getInfo
  split
  · split
    · rfl
    · cases t.infoResp param with
      | ok o =>
        cases o
        · dsimp only; split <;> rfl
        · dsimp only; split <;> rfl
      | error e => dsimp only; split <;> split <;> rfl
  · split <;> rfl

/-- Membership in the right operand carries over to a determinized union. -/
theorem mem_listUnion_right (a b : List String) (x : String) (hx : x ∈ b) :
    x ∈ listUnion a b := by
  by_cases hxa : x ∈ a
  · exact List.mem_append_left _ hxa
  · exact List.mem_append_right _ (List.mem_filter.mpr ⟨hx, by simpa using hxa⟩)

/-- C6: trial-and-error subscription negotiation.  (1) An `Unrecognized
event` rejection makes the loop parse the offending name out of the error
text, record it as unavailable, discard it from the requested set and
resubmit.  (2) Any other protocol error abandons the negotiation: the
remembered controller-event set is unchanged and the call returns the empty
list.  (3) When the rejection-then-success script completes, the offending
name is absent from the applied set and remembered in the session's failed
events. -/
theorem setControllerEvents_negotiation (t : Transport) (s : CtrlState)
    (events ev un : List String) (msg : String) (ha : s.alive = true) :
    (∀ (rest : List (Except TErr Unit)), pyContains msg "Unrecognized event" = true →
       Controller.setEventsLoop (.error (.errorReply msg) :: rest) s ev un
         = Controller.setEventsLoop rest (s.logAct (.setEventsQ ev))
             (ev.filter (fun x => x ≠ parseUnrecognizedEvent msg))
             (listUnion un [parseUnrecognizedEvent msg]))
  ∧ (∀ (rest : List (Except TErr Unit)),
       t.setEventsResps = .error (.errorReply msg) :: rest →
       pyContains msg "Unrecognized event" = false →
       (Controller.setControllerEvents t s events).1 = .ret []
       ∧ ((Controller.setControllerEvents t s events).2).controllerEvents
           = s.controllerEvents)
  ∧ (t.setEventsResps = [.error (.errorReply msg), .ok ()] →
       pyContains msg "Unrecognized event" = true →
       (∀ l, (Controller.setControllerEvents t s events).1 = .ret l →
          parseUnrecognizedEvent msg ∉ l)
       ∧ parseUnrecognizedEvent msg
           ∈ ((Controller.setControllerEvents t s events).2).failedEvents) := by
  refine ⟨?_, ?_, ?_⟩
  · intro rest hu
    conv_lhs => rw [Controller.setEventsLoop]
    rw [hu, if_pos rfl]
  · intro rest hscript hu
    have hcond : ¬ (pyContains msg "Unrecognized event" = true) := by
      rw [hu]; exact Bool.false_ne_true
    unfold Controller.setControllerEvents
    rw [if_pos ha, hscript]
    unfold Controller.setEventsLoop
    dsimp only
    rw [if_neg hcond]
    dsimp only
    constructor
    · rfl
    · simp
  · intro hscript hu
    unfold Controller.setControllerEvents
    rw [if_pos ha, hscript]
    unfold Controller.setEventsLoop
    dsimp only
    rw [hu, if_pos rfl]
    unfold Controller.setEventsLoop
    dsimp only
    constructor
    · intro l hl
      have hl' := SCEOut.ret.inj hl
      subst hl'
      intro hmem
      have := List.of_mem_filter hmem
      simp at this
    · apply mem_listUnion_right
      exact mem_listUnion_right _ _ _ (by simp)

/-- Witness for C6: concretely, a non-`Unrecognized` protocol error
(`"513 syntax error"`) abandons the negotiation — empty return, remembered
set unchanged — and the loop equation holds for the `Unrecognized` reply. -/
theorem setControllerEvents_negotiation_witness :
    (Controller.setControllerEvents witT4 witS ["BW"]).1 = SCEOut.ret []
  ∧ ((Controller.setControllerEvents witT4 witS ["BW"]).2).controllerEvents
      = witS.controllerEvents := by
  have h := setControllerEvents_negotiation witT4 witS ["BW"] [] []
    "513 syntax error" rfl
  exact h.2.1 [] rfl rfl

/-- Helper: a rule built by `finishRule` whose address and port components are
both wildcards has its successor cut off. -/
theorem finishRule_terminal (re : String) (a w : Bool) (ip pt : String)
    (n : Option ExitPolicy)
    (h1 : (ExitPolicy.finishRule re a w ip pt n).isIpWildcard = true)
    (h2 : (ExitPolicy.finishRule re a w ip pt n).isPortWildcard = true) :
    (ExitPolicy.finishRule re a w ip pt n).nextRule = none := by
  simp only [ExitPolicy.finishRule, ExitPolicy.isIpWildcard, ExitPolicy.isPortWildcard,
    ExitPolicy.nextRule] at h1 h2 ⊢
  simp [h1, h2]

/-- C5: for every ExitPolicy rule constructed with any successor argument, if
the rule's address component is a wildcard and its port component is a
wildcard, then the constructed rule's successor is `none`, even when a
non-null successor was supplied to the constructor. -/
theorem exitPolicy_wildcard_rule_is_terminal (r : String) (next : Option ExitPolicy)
    (h1 : (ExitPolicy.build r next).isIpWildcard = true)
    (h2 : (ExitPolicy.build r next).isPortWildcard = true) :
    (ExitPolicy.build r next).nextRule = none := by
  by_cases hp : pyLower (ExitPolicy.entryIp r) = "private"
  · simp only [ExitPolicy.build, hp, if_true] at h1 h2 ⊢
    exact finishRule_terminal _ _ _ _ _ _ h1 h2
  · simp only [ExitPolicy.build, ExitPolicy.buildNonPrivate, hp, if_false] at h1 h2 ⊢
    exact finishRule_terminal _ _ _ _ _ _ h1 h2

/-- Witness for C5: `"accept *:*"` constructed with a non-null successor ends
up with no successor. -/
theorem exitPolicy_wildcard_rule_is_terminal_witness :
    (ExitPolicy.build "accept *:*"
      (some (ExitPolicy.build "reject 1.2.3.4:80" none))).nextRule = none :=
  exitPolicy_wildcard_rule_is_terminal "accept *:*"
    (some (ExitPolicy.build "reject 1.2.3.4:80" none)) (by decide) (by decide)

/-- C3: for the chain built from `"reject 192.168.0.0/16:*"` with successor
`"accept *:*"`, `check "192.168.1.5" 80` rejects (the head rule carries the
16-bit mask that matches via binary prefix comparison) and
`check "8.8.8.8" 80` accepts via the wildcard successor. -/
theorem exitPolicy_cidr_chain_check :
    (ExitPolicy.build "reject 192.168.0.0/16:*"
      (some (ExitPolicy.build "accept *:*" none))).check "192.168.1.5" 80 = false
  ∧ (ExitPolicy.build "reject 192.168.0.0/16:*"
      (some (ExitPolicy.build "accept *:*" none))).check "8.8.8.8" 80 = true
  ∧ (ExitPolicy.build "reject 192.168.0.0/16:*"
      (some (ExitPolicy.build "accept *:*" none))).ipMask = 16
  ∧ (ExitPolicy.build "accept *:*" none).isIpWildcard = true := by
  refine ⟨by decide, by decide, by decide, by decide⟩

/-- C4: `"reject private:*"` chained before `"accept *:*"` expands the
`private` alias at construction time: the rule's own address becomes
`0.0.0.0/8`, the remaining private ranges form a prepended reject sub-chain
with the same port spec, `check "127.0.0.1" 9050` rejects, and the rendered
chain has exactly one rule per private range plus the trailing accept-all. -/
theorem exitPolicy_private_alias_expansion :
    (ExitPolicy.build "reject private:*"
      (some (ExitPolicy.build "accept *:*" none))).check "127.0.0.1" 9050 = false
  ∧ (ExitPolicy.build "reject private:*"
      (some (ExitPolicy.build "accept *:*" none))).render
      = "reject 0.0.0.0/8:*, reject 169.254.0.0/16:*, reject 127.0.0.0/8:*, " ++
        "reject 192.168.0.0/16:*, reject 10.0.0.0/8:*, reject 172.16.0.0/12:*, accept *:*"
  ∧ (ExitPolicy.build "reject private:*"
      (some (ExitPolicy.build "accept *:*" none))).ipAddress = "0.0.0.0"
  ∧ (ExitPolicy.build "reject private:*"
      (some (ExitPolicy.build "accept *:*" none))).ipMask = 8 := by
  refine ⟨by decide, by decide, by decide, by decide⟩

end TorTools
